import Mathlib

/-!
Verification of the motosus parametric rig builder against its
natural-language specification.

The development shallowly embeds the relevant JavaScript modules over exact
reals:

* `src/js/geometry.js` (also `src/unnamed/part_001`): `distance`,
  `triangleVertices`, `triangleVerticesNamed`, `triangleCentroid`,
  `triangleFromVerticesAndEdges`, `generateGeometry`.
* `src/unnamed/part_006` (`Simulation.createWorld` / `Simulation.updateBodies`):
  body poses and the five joints of the motorcycle rig.
* `src/unnamed/part_016` (`MotorcycleComponent` constructor): the order of
  world mutation relative to geometry validation.
* `src/unnamed/part_000` (`SimulationComponent.destroy`): recursive component
  destruction.

JavaScript floating-point numbers are modelled as exact reals; the dynamic
layer (missing fields, `null` arguments, NaN propagation) is modelled
separately with `Option ℝ` where a claim depends on it (NaN and `undefined`
are both `none`: NaN propagates through arithmetic and makes every `>=`
comparison false, exactly as in JavaScript).
-/

namespace Motosus

/-- Two-dimensional point `{x, y}` as used throughout `geometry.js`. -/
@[ext]
structure Point where
  x : ℝ
  y : ℝ

instance : Add Point := ⟨fun p q => ⟨p.x + q.x, p.y + q.y⟩⟩

instance : Sub Point := ⟨fun p q => ⟨p.x - q.x, p.y - q.y⟩⟩

instance : SMul ℝ Point := ⟨fun r p => ⟨r * p.x, r * p.y⟩⟩

theorem Point.add_def (p q : Point) : p + q = ⟨p.x + q.x, p.y + q.y⟩ := rfl

theorem Point.sub_def (p q : Point) : p - q = ⟨p.x - q.x, p.y - q.y⟩ := rfl

theorem Point.smul_def (r : ℝ) (p : Point) : r • p = ⟨r * p.x, r * p.y⟩ := rfl

/-- `distance(p1, p2)` from `geometry.js`:
`Math.sqrt(Math.pow(p2.x - p1.x, 2) + Math.pow(p2.y - p1.y, 2))`. -/
noncomputable def distance (p1 p2 : Point) : ℝ :=
  Real.sqrt ((p2.x - p1.x) ^ 2 + (p2.y - p1.y) ^ 2)

/-- Errors thrown by the geometry module.  `invalidGeometry` carries exactly
the data interpolated into the message template of `triangleVerticesNamed`:
the chosen offending display name, then `sideA.value`/`sideA.unit` (which the
template always prints next to the offending name), then `sideB`'s and
`sideC`'s display names, values and units. -/
inductive GeometryError where
  | invalidTriangle
  | invalidGeometry (invalidSide : String) (shownValue : ℝ) (shownUnit : String)
      (secondName : String) (secondValue : ℝ) (secondUnit : String)
      (thirdName : String) (thirdValue : ℝ) (thirdUnit : String)
  | invalidInput
  | invalidLengths

/-- Law-of-cosines argument computed in `triangleVertices`:
`(a * a - b * b - c * c) / (-2 * b * c)`. -/
noncomputable def cosC (a b c : ℝ) : ℝ :=
  (a * a - b * b - c * c) / (-2 * b * c)

/-- Vertex `A` as computed in `triangleVertices`:
`{ x: -b * Math.cos(angleC), y: -b * Math.sin(angleC) }` with
`angleC = Math.acos(cosC)`. -/
noncomputable def vertexA (a b c : ℝ) : Point :=
  ⟨-b * Real.cos (Real.arccos (cosC a b c)), -b * Real.sin (Real.arccos (cosC a b c))⟩

/-- `triangleVertices(a, b, c)` from `geometry.js`: validates the triangle
inequality (throwing on `a >= b + c || b >= a + c || c >= a + b`), then
returns `[C, B, A]` with `C = (0,0)`, `B = (-c, 0)` and `A` from the law of
cosines. -/
noncomputable def triangleVertices (a b c : ℝ) : Except GeometryError (Point × Point × Point) :=
  if a ≥ b + c ∨ b ≥ a + c ∨ c ≥ a + b then
    Except.error GeometryError.invalidTriangle
  else
    Except.ok (⟨0, 0⟩, ⟨-c, 0⟩, vertexA a b c)

/-- Side parameter `{ displayName, value, unit }`. -/
structure NamedSide where
  displayName : String
  value : ℝ
  unit : String

/-- `triangleVerticesNamed(sideA, sideB, sideC)` from `geometry.js`.  The
JavaScript property-presence check on each side is vacuous in this typed
embedding.  On an `Invalid triangle` failure the function picks the offending
side by re-testing the three inequalities in order and throws the detailed
message; the payload mirrors the template interpolations exactly (note that
the template always prints `sideA.value`/`sideA.unit` next to the chosen
name, and always lists `sideB` and `sideC` as the other two sides). -/
noncomputable def triangleVerticesNamed (sideA sideB sideC : NamedSide) :
    Except GeometryError (Point × Point × Point) :=
  match triangleVertices sideA.value sideB.value sideC.value with
  | Except.ok v => Except.ok v
  | Except.error _ =>
    Except.error (GeometryError.invalidGeometry
      (if sideA.value ≥ sideB.value + sideC.value then sideA.displayName
       else if sideB.value ≥ sideA.value + sideC.value then sideB.displayName
       else sideC.displayName)
      sideA.value sideA.unit
      sideB.displayName sideB.value sideB.unit
      sideC.displayName sideC.value sideC.unit)

/-- `triangleCentroid(vertices)`: arithmetic mean of the three vertices. -/
noncomputable def triangleCentroid (v : Point × Point × Point) : Point :=
  ⟨(v.1.x + v.2.1.x + v.2.2.x) / 3, (v.1.y + v.2.1.y + v.2.2.y) / 3⟩

/-- `Math.atan2(y, x)`, modelled as the argument of the complex number
`x + y*i` (both return the angle in `(-π, π]`). -/
noncomputable def atan2 (y x : ℝ) : ℝ :=
  Complex.arg ⟨x, y⟩

/-- Law-of-cosines argument computed in `triangleFromVerticesAndEdges`:
`(lengthB*lengthB - lengthA*lengthA - lengthC*lengthC) / (-2*lengthA*lengthC)`
with `lengthC = distance(vertexA, vertexB)`. -/
noncomputable def cosApexA (vA vB : Point) (lengthA lengthB : ℝ) : ℝ :=
  (lengthB * lengthB - lengthA * lengthA - distance vA vB * distance vA vB) /
    (-2 * lengthA * distance vA vB)

/-- Apex vertex computed in `triangleFromVerticesAndEdges`:
`vertexA + lengthA * (cos(edgeAngle - angleA), sin(edgeAngle - angleA))`. -/
noncomputable def apexPoint (vA vB : Point) (lengthA lengthB : ℝ) : Point :=
  ⟨vA.x + lengthA * Real.cos (atan2 (vB.y - vA.y) (vB.x - vA.x) -
      Real.arccos (cosApexA vA vB lengthA lengthB)),
   vA.y + lengthA * Real.sin (atan2 (vB.y - vA.y) (vB.x - vA.x) -
      Real.arccos (cosApexA vA vB lengthA lengthB))⟩

/-- `triangleFromVerticesAndEdges(vertexA, vertexB, lengthA, lengthB)` from
`geometry.js`, numeric core: rejects non-positive lengths, validates the
triangle inequality over `(lengthA, lengthB, distance(vertexA, vertexB))`,
and otherwise returns the apex with clockwise winding.  The dynamic-typing
guard (`!vertexA || !vertexB || typeof lengthA !== 'number' ...`) is modelled
separately in `triangleFromVerticesAndEdgesJs`. -/
noncomputable def triangleFromVerticesAndEdges (vA vB : Point) (lengthA lengthB : ℝ) :
    Except GeometryError Point :=
  if lengthA ≤ 0 ∨ lengthB ≤ 0 then
    Except.error GeometryError.invalidLengths
  else if lengthA ≥ lengthB + distance vA vB ∨ lengthB ≥ lengthA + distance vA vB ∨
      distance vA vB ≥ lengthA + lengthB then
    Except.error GeometryError.invalidTriangle
  else
    Except.ok (apexPoint vA vB lengthA lengthB)

/-- Frame parameter group (the `params.frame` object), fields as read by
`generateGeometry`, `MotorcycleComponent` and `Simulation.updateBodies`. -/
structure FrameParams where
  swingArmPivotToHeadTubeTopCenter : NamedSide
  swingArmPivotToHeadTubeBottomCenter : NamedSide
  headTubeLength : NamedSide
  topForkTubeLength : NamedSide
  bottomForkTubeLength : NamedSide
  swingarmLength : NamedSide
  frontWheelDiameter : NamedSide
  rearWheelDiameter : NamedSide
  rearShockUpperPivotToHeadTubeTop : NamedSide
  rearShockUpperPivotToFramePivot : NamedSide

/-- Simulation parameter group (the `params.simulation` object). -/
structure SimParams where
  groundWidth : NamedSide
  groundHeight : NamedSide
  density : NamedSide
  forkSpringFrequency : NamedSide
  forkSpringDamping : NamedSide

/-- Full parameter set `{ frame, simulation }`. -/
structure Params where
  frame : FrameParams
  simulation : SimParams

/-- Ground rectangle returned by `generateGeometry`. -/
structure GroundGeometry where
  x : ℝ
  y : ℝ
  width : ℝ
  height : ℝ

/-- Anchor set returned by `generateGeometry` (`src/unnamed/part_001`). -/
structure MotoGeometry where
  frameVertices : Point × Point × Point
  forkTopVertices : List Point
  forkBottomVertices : List Point
  swingArmPivot : Point
  headTubeBottom : Point
  headTubeTop : Point
  frameCentroid : Point
  groundGeometry : GroundGeometry
  rearShockUpperPivot : Point
  shockFrameVertices : List Point

/-- `generateGeometry(frameParams, simulationParams)` from
`src/unnamed/part_001`: one geometry pass producing the full anchor set.
Failures of `triangleVerticesNamed` and `triangleFromVerticesAndEdges`
propagate. -/
noncomputable def generateGeometry (frameParams : FrameParams) (simulationParams : SimParams) :
    Except GeometryError MotoGeometry :=
  match triangleVerticesNamed frameParams.headTubeLength
      frameParams.swingArmPivotToHeadTubeTopCenter
      frameParams.swingArmPivotToHeadTubeBottomCenter with
  | Except.error e => Except.error e
  | Except.ok fv =>
    let swingArmPivot := fv.1
    let headTubeBottom := fv.2.1
    let headTubeTop := fv.2.2
    let frameCentroid := triangleCentroid fv
    match triangleFromVerticesAndEdges headTubeTop swingArmPivot
        frameParams.rearShockUpperPivotToHeadTubeTop.value
        frameParams.rearShockUpperPivotToFramePivot.value with
    | Except.error e => Except.error e
    | Except.ok rearShockUpperPivot =>
    let forkBottomWidth := frameParams.bottomForkTubeLength.value * 0.2
    let forkTopWidth := frameParams.topForkTubeLength.value * 0.2
    Except.ok
      { frameVertices := fv
        forkTopVertices :=
          [⟨-forkTopWidth / 2, -frameParams.topForkTubeLength.value⟩,
           ⟨forkTopWidth / 2, -frameParams.topForkTubeLength.value⟩,
           ⟨forkTopWidth / 2, 0⟩, ⟨-forkTopWidth / 2, 0⟩]
        forkBottomVertices :=
          [⟨-forkBottomWidth / 2, -frameParams.bottomForkTubeLength.value⟩,
           ⟨forkBottomWidth / 2, -frameParams.bottomForkTubeLength.value⟩,
           ⟨forkBottomWidth / 2, 0⟩, ⟨-forkBottomWidth / 2, 0⟩]
        swingArmPivot := swingArmPivot
        headTubeBottom := headTubeBottom
        headTubeTop := headTubeTop
        frameCentroid := frameCentroid
        groundGeometry :=
          ⟨0, 0, simulationParams.groundWidth.value, simulationParams.groundHeight.value⟩
        rearShockUpperPivot := rearShockUpperPivot
        shockFrameVertices := [swingArmPivot, headTubeTop, rearShockUpperPivot] }

/-- World-to-body-local conversion applied by the rig builder to every anchor:
`Vec2(v.x - swingArmPivot.x, v.y - swingArmPivot.y)`. -/
noncomputable def localToFrame (pivot v : Point) : Point :=
  ⟨v.x - pivot.x, v.y - pivot.y⟩

/-- Position and angle of a rigid body. -/
structure Pose where
  position : Point
  angle : ℝ

/-- Rotation of a local point by a body angle (the physics engine's
body-to-world rotation). -/
noncomputable def rotatePoint (θ : ℝ) (p : Point) : Point :=
  ⟨p.x * Real.cos θ - p.y * Real.sin θ, p.x * Real.sin θ + p.y * Real.cos θ⟩

/-- World-space position of a body-local point: `position + R(angle) · p`. -/
noncomputable def worldPoint (pose : Pose) (p : Point) : Point :=
  pose.position + rotatePoint pose.angle p

/-- `Vec2.normalize` (planck): division of both components by
`sqrt(x² + y²)`; on the zero vector the quotient is the zero vector. -/
noncomputable def normalize (v : Point) : Point :=
  ⟨v.x / Real.sqrt (v.x ^ 2 + v.y ^ 2), v.y / Real.sqrt (v.x ^ 2 + v.y ^ 2)⟩

/-- Prismatic joint definition (`PrismaticJoint({...}, frameBody, bottomForkBody)`). -/
structure PrismaticJointRec where
  localAxisA : Point
  localAnchorA : Point
  localAnchorB : Point
  lowerTranslation : ℝ
  upperTranslation : ℝ

/-- Distance joint definition (`DistanceJoint({...}, frameBody, bottomForkBody)`). -/
structure DistanceJointRec where
  frequencyHz : ℝ
  dampingRatio : ℝ
  length : ℝ
  localAnchorA : Point
  localAnchorB : Point

/-- Revolute joint definition. -/
structure RevoluteJointRec where
  localAnchorA : Point
  localAnchorB : Point

/-- State of the constructed rig: the five body poses and the five joints.
Joint `bodyA`/`bodyB` assignments are fixed by the field names (e.g. the
prismatic joint couples the frame body to the bottom-fork body). -/
structure Rig where
  framePose : Pose
  bottomForkPose : Pose
  frontWheelPose : Pose
  swingarmPose : Pose
  rearWheelPose : Pose
  prismatic : PrismaticJointRec
  spring : DistanceJointRec
  forkFrontWheelJoint : RevoluteJointRec
  frameSwingarmJoint : RevoluteJointRec
  swingarmRearWheelJoint : RevoluteJointRec

/-- Fork axis as computed by the rig builder: the unit vector from
`headTubeBottom` to `headTubeTop`
(`Vec2(headTubeTop.x - headTubeBottom.x, headTubeTop.y - headTubeBottom.y)`
normalized). -/
noncomputable def forkAxisOf (headTubeTop headTubeBottom : Point) : Point :=
  normalize ⟨headTubeTop.x - headTubeBottom.x, headTubeTop.y - headTubeBottom.y⟩

/-- Body poses and joint definitions created by `Simulation.createWorld` /
`Simulation.updateBodies` (`src/unnamed/part_006`, worldBodies variant; the
joint definitions coincide with `MotorcycleComponent.createJoints` in
`src/unnamed/part_016`) once the frame geometry `[swingArmPivot,
headTubeBottom, headTubeTop]` is available.  Body poses: the frame, bottom
fork, front wheel and swingarm bodies are created at the origin with angle 0
and the rear wheel at `(swingarmLength, 0)`; `updateBodies` then re-poses the
bottom fork (translated down the fork axis, angle `atan2(axis) - π/2`) and
the front wheel, and creates the five joints.  Fixture creation carries no
data used by any claim and is omitted. -/
noncomputable def buildRig (params : Params)
    (swingArmPivot headTubeBottom headTubeTop : Point) : Rig :=
  let forkAxis := forkAxisOf headTubeTop headTubeBottom
  let forkAngle := atan2 forkAxis.y forkAxis.x - Real.pi / 2
  let bottomForkPos : Point :=
    ⟨headTubeTop.x - forkAxis.x * params.frame.topForkTubeLength.value,
     headTubeTop.y - forkAxis.y * params.frame.topForkTubeLength.value⟩
  let frontWheelPos : Point :=
    ⟨bottomForkPos.x - forkAxis.x * params.frame.bottomForkTubeLength.value,
     bottomForkPos.y - forkAxis.y * params.frame.bottomForkTubeLength.value⟩
  { framePose := ⟨⟨0, 0⟩, 0⟩
    bottomForkPose := ⟨bottomForkPos, forkAngle⟩
    frontWheelPose := ⟨frontWheelPos, 0⟩
    swingarmPose := ⟨⟨0, 0⟩, 0⟩
    rearWheelPose := ⟨⟨params.frame.swingarmLength.value, 0⟩, 0⟩
    prismatic :=
      { localAxisA := forkAxis
        localAnchorA :=
          ⟨headTubeTop.x - forkAxis.x * params.frame.topForkTubeLength.value - swingArmPivot.x,
           headTubeTop.y - forkAxis.y * params.frame.topForkTubeLength.value - swingArmPivot.y⟩
        localAnchorB := ⟨0, 0⟩
        lowerTranslation := 0
        upperTranslation := 0.15 }
    spring :=
      { frequencyHz := params.simulation.forkSpringFrequency.value
        dampingRatio := params.simulation.forkSpringDamping.value
        length := params.frame.bottomForkTubeLength.value +
          params.frame.topForkTubeLength.value - params.frame.headTubeLength.value
        localAnchorA :=
          ⟨headTubeBottom.x - swingArmPivot.x, headTubeBottom.y - swingArmPivot.y⟩
        localAnchorB := ⟨0, -params.frame.bottomForkTubeLength.value⟩ }
    forkFrontWheelJoint :=
      { localAnchorA := ⟨0, -params.frame.bottomForkTubeLength.value⟩
        localAnchorB := ⟨0, 0⟩ }
    frameSwingarmJoint := { localAnchorA := ⟨0, 0⟩, localAnchorB := ⟨0, 0⟩ }
    swingarmRearWheelJoint :=
      { localAnchorA := ⟨params.frame.swingarmLength.value, 0⟩
        localAnchorB := ⟨0, 0⟩ } }

/-- Rig construction as performed by `Simulation.createWorld(params)` (which
clears the world, creates the six bodies and calls `updateBodies(params)`):
the frame-triangle geometry and the rear-shock apex are computed first
(failures propagate), then the poses and joints of `buildRig` are
established. -/
noncomputable def createWorldRig (params : Params) : Except GeometryError Rig :=
  match triangleVerticesNamed params.frame.headTubeLength
      params.frame.swingArmPivotToHeadTubeTopCenter
      params.frame.swingArmPivotToHeadTubeBottomCenter with
  | Except.error e => Except.error e
  | Except.ok fv =>
    match triangleFromVerticesAndEdges fv.2.2 fv.1
        params.frame.rearShockUpperPivotToHeadTubeTop.value
        params.frame.rearShockUpperPivotToFramePivot.value with
    | Except.error e => Except.error e
    | Except.ok _rearShockUpperPivot => Except.ok (buildRig params fv.1 fv.2.1 fv.2.2)

/-- Counts of objects in the physics world (bodies, fixtures, joints). -/
structure WorldCount where
  bodies : ℕ
  fixtures : ℕ
  joints : ℕ
deriving DecidableEq

/-- World mutation performed by `new MotorcycleComponent(simulation, params)`
(`src/unnamed/part_016`): the `super()` call and the four child
`SimulationComponent` constructors each create a body *before* any geometry
validation runs; `createFixtures` then runs `triangleVerticesNamed` and
`triangleFromVerticesAndEdges`, throwing (second component `false`) before
any fixture is attached when either fails; on success the seven fixtures and
five joints are created.  The returned flag records whether construction
completed. -/
noncomputable def motorcycleComponentConstruct (params : Params) (w : WorldCount) :
    WorldCount × Bool :=
  let w1 : WorldCount := { w with bodies := w.bodies + 5 }
  match triangleVerticesNamed params.frame.headTubeLength
      params.frame.swingArmPivotToHeadTubeTopCenter
      params.frame.swingArmPivotToHeadTubeBottomCenter with
  | Except.error _ => (w1, false)
  | Except.ok fv =>
    match triangleFromVerticesAndEdges fv.2.2 fv.1
        params.frame.rearShockUpperPivotToHeadTubeTop.value
        params.frame.rearShockUpperPivotToFramePivot.value with
    | Except.error _ => (w1, false)
    | Except.ok _ =>
      ({ w1 with fixtures := w1.fixtures + 7, joints := w1.joints + 5 }, true)

/-- JavaScript numeric addition on possibly-NaN values (`none` is NaN or
`undefined`; NaN propagates). -/
noncomputable def jadd : Option ℝ → Option ℝ → Option ℝ
  | some a, some b => some (a + b)
  | _, _ => none

/-- JavaScript numeric subtraction with NaN propagation. -/
noncomputable def jsub : Option ℝ → Option ℝ → Option ℝ
  | some a, some b => some (a - b)
  | _, _ => none

/-- JavaScript numeric multiplication with NaN propagation. -/
noncomputable def jmul : Option ℝ → Option ℝ → Option ℝ
  | some a, some b => some (a * b)
  | _, _ => none

/-- JavaScript numeric division with NaN propagation (division by zero is
never reached on the paths analysed here). -/
noncomputable def jdiv : Option ℝ → Option ℝ → Option ℝ
  | some a, some b => some (a / b)
  | _, _ => none

/-- `Math.sqrt`: NaN on NaN and on negative input. -/
noncomputable def jsqrt : Option ℝ → Option ℝ
  | some a => if a < 0 then none else some (Real.sqrt a)
  | none => none

/-- `Math.acos`: NaN on NaN and outside `[-1, 1]`. -/
noncomputable def jacos : Option ℝ → Option ℝ
  | some a => if a < -1 ∨ 1 < a then none else some (Real.arccos a)
  | none => none

/-- `Math.cos` with NaN propagation. -/
noncomputable def jcos : Option ℝ → Option ℝ
  | some a => some (Real.cos a)
  | none => none

/-- `Math.sin` with NaN propagation. -/
noncomputable def jsin : Option ℝ → Option ℝ
  | some a => some (Real.sin a)
  | none => none

/-- `Math.atan2` with NaN propagation. -/
noncomputable def jatan2 : Option ℝ → Option ℝ → Option ℝ
  | some y, some x => some (atan2 y x)
  | _, _ => none

/-- JavaScript `>=`: false whenever either operand is NaN. -/
noncomputable def jge : Option ℝ → Option ℝ → Bool
  | some a, some b => decide (a ≥ b)
  | _, _ => false

/-- A JavaScript point object whose `x`/`y` fields may be missing
(`none` = `undefined`). -/
structure JsPoint where
  x : Option ℝ
  y : Option ℝ

/-- `distance(p1, p2)` evaluated under JavaScript semantics on points with
possibly-missing fields: `undefined` enters arithmetic as NaN and
propagates. -/
noncomputable def distanceJs (p1 p2 : JsPoint) : Option ℝ :=
  jsqrt (jadd (jmul (jsub p2.x p1.x) (jsub p2.x p1.x))
    (jmul (jsub p2.y p1.y) (jsub p2.y p1.y)))

/-- `triangleFromVerticesAndEdges` with its dynamic layer: the arguments
`vertexA`/`vertexB` are `none` when `null`/`undefined` (rejected by the
falsiness check `!vertexA || !vertexB`), but a non-null point with a missing
field passes every guard: its NaN distance makes all three `>=` comparisons
false.  The `typeof lengthA !== 'number'` check is vacuous in this typed
embedding (NaN itself is a JavaScript number). -/
noncomputable def triangleFromVerticesAndEdgesJs (vertexA vertexB : Option JsPoint)
    (lengthA lengthB : ℝ) : Except GeometryError JsPoint :=
  match vertexA, vertexB with
  | some vA, some vB =>
    if lengthA ≤ 0 ∨ lengthB ≤ 0 then
      Except.error GeometryError.invalidLengths
    else
      let lengthC := distanceJs vA vB
      if jge (some lengthA) (jadd (some lengthB) lengthC) ||
          jge (some lengthB) (jadd (some lengthA) lengthC) ||
          jge lengthC (jadd (some lengthA) (some lengthB)) then
        Except.error GeometryError.invalidTriangle
      else
        let cosA := jdiv
          (jsub (jsub (jmul (some lengthB) (some lengthB)) (jmul (some lengthA) (some lengthA)))
            (jmul lengthC lengthC))
          (jmul (jmul (some (-2)) (some lengthA)) lengthC)
        let angleA := jacos cosA
        let edgeAngle := jatan2 (jsub vB.y vA.y) (jsub vB.x vA.x)
        Except.ok
          ⟨jadd vA.x (jmul (some lengthA) (jcos (jsub edgeAngle angleA))),
           jadd vA.y (jmul (some lengthA) (jsin (jsub edgeAngle angleA)))⟩
  | _, _ => Except.error GeometryError.invalidInput

/-- `SimulationComponent` (`src/unnamed/part_000`) reduced to the state
`destroy` touches: the owned body handle and the children list. -/
inductive SimComponent where
  | mk (body : Option Nat) (children : List SimComponent)

/-- Owned body handle of a component. -/
def SimComponent.body : SimComponent → Option Nat
  | .mk b _ => b

/-- Children list of a component. -/
def SimComponent.children : SimComponent → List SimComponent
  | .mk _ cs => cs

/-- `world.destroyBody(body)`: removes the body from the world; destroying a
handle that is not in the world is a fault (`none`). -/
def destroyBody (id : Nat) (w : List Nat) : Option (List Nat) :=
  if id ∈ w then some (w.erase id) else none

mutual

/-- `SimulationComponent.destroy()`: destroys all children first, clears the
children array, then destroys the owned body when present (`if (this.body)`)
and nulls it.  Returns the updated component and world, or `none` when a
body destruction faults. -/
def destroy : SimComponent → List Nat → Option (SimComponent × List Nat)
  | SimComponent.mk b cs, w =>
    match destroyAll cs w with
    | none => none
    | some w1 =>
      match b with
      | some id =>
        match destroyBody id w1 with
        | none => none
        | some w2 => some (SimComponent.mk none [], w2)
      | none => some (SimComponent.mk none [], w1)

/-- `this.children.forEach(child => child.destroy())`. -/
def destroyAll : List SimComponent → List Nat → Option (List Nat)
  | [], w => some w
  | c :: cs, w =>
    match destroy c w with
    | none => none
    | some (_, w1) => destroyAll cs w1

end

/-- Concrete valid frame parameter set (equilateral frame triangle with unit
sides, fork tubes of length 3, swingarm of length 2), used as witness
input. -/
noncomputable def exampleFrame : FrameParams :=
  { swingArmPivotToHeadTubeTopCenter := ⟨"Swing Arm Pivot to Head Tube Top Center", 1, "m"⟩
    swingArmPivotToHeadTubeBottomCenter := ⟨"Swing Arm Pivot to Head Tube Bottom Center", 1, "m"⟩
    headTubeLength := ⟨"Head Tube Length", 1, "m"⟩
    topForkTubeLength := ⟨"Top Fork Tube Length", 3, "m"⟩
    bottomForkTubeLength := ⟨"Bottom Fork Tube Length", 3, "m"⟩
    swingarmLength := ⟨"Swingarm Length", 2, "m"⟩
    frontWheelDiameter := ⟨"Front Wheel Diameter", 1, "m"⟩
    rearWheelDiameter := ⟨"Rear Wheel Diameter", 1, "m"⟩
    rearShockUpperPivotToHeadTubeTop := ⟨"Rear Shock Upper Pivot to Head Tube Top", 1, "m"⟩
    rearShockUpperPivotToFramePivot := ⟨"Rear Shock Upper Pivot to Frame Pivot", 1, "m"⟩ }

/-- Frame parameter set violating the triangle inequality: the bottom-tube
distance (3) is at least the head tube length (1) plus the top-tube
distance (1). -/
noncomputable def exampleBadFrame : FrameParams :=
  { exampleFrame with
    swingArmPivotToHeadTubeTopCenter := ⟨"Swing Arm Pivot to Head Tube Top Center", 1, "m"⟩
    swingArmPivotToHeadTubeBottomCenter := ⟨"Swing Arm Pivot to Head Tube Bottom Center", 3, "m"⟩
    headTubeLength := ⟨"Head Tube Length", 1, "m"⟩ }

/-- Concrete simulation parameter set used as witness input. -/
noncomputable def exampleSim : SimParams :=
  { groundWidth := ⟨"Ground Width", 2, "m"⟩
    groundHeight := ⟨"Ground Height", 1, "m"⟩
    density := ⟨"Density", 1, ""⟩
    forkSpringFrequency := ⟨"Fork Spring Frequency", 4, "Hz"⟩
    forkSpringDamping := ⟨"Fork Spring Damping", 1, ""⟩ }

/-- Concrete valid parameter set. -/
noncomputable def exampleParams : Params :=
  ⟨exampleFrame, exampleSim⟩

/-- Concrete triangle-inequality-violating parameter set. -/
noncomputable def exampleBadParams : Params :=
  ⟨exampleBadFrame, exampleSim⟩

/-! Shared lemmas about the triangle constructions. -/

theorem tri_pos {a b c : ℝ} (ha : a < b + c) (hb : b < a + c) (hc : c < a + b) :
    0 < a ∧ 0 < b ∧ 0 < c := by
  refine ⟨by linarith, by linarith, by linarith⟩

theorem cosLaw_bounds {a b c : ℝ} (ha : a < b + c) (hb : b < a + c) (hc : c < a + b) :
    -1 < (b * b + c * c - a * a) / (2 * b * c) ∧ (b * b + c * c - a * a) / (2 * b * c) < 1 := by
  obtain ⟨hpa, hpb, hpc⟩ := tri_pos ha hb hc
  have hbc : 0 < 2 * b * c := by positivity
  constructor
  · rw [lt_div_iff₀ hbc]
    nlinarith [mul_pos (show (0:ℝ) < b + c - a by linarith) (show (0:ℝ) < b + c + a by linarith)]
  · rw [div_lt_one hbc]
    nlinarith [mul_pos (show (0:ℝ) < a - b + c by linarith) (show (0:ℝ) < a + b - c by linarith)]

theorem cosC_eq (a b c : ℝ) : cosC a b c = (b * b + c * c - a * a) / (2 * b * c) := by
  unfold cosC
  rw [show a * a - b * b - c * c = -(b * b + c * c - a * a) by ring,
    show (-2 : ℝ) * b * c = -(2 * b * c) by ring, neg_div_neg_eq]

theorem cosC_bounds {a b c : ℝ} (ha : a < b + c) (hb : b < a + c) (hc : c < a + b) :
    -1 < cosC a b c ∧ cosC a b c < 1 := by
  rw [cosC_eq]
  exact cosLaw_bounds ha hb hc

theorem cos_arccos_cosC {a b c : ℝ} (ha : a < b + c) (hb : b < a + c) (hc : c < a + b) :
    Real.cos (Real.arccos (cosC a b c)) = cosC a b c := by
  obtain ⟨h1, h2⟩ := cosC_bounds ha hb hc
  exact Real.cos_arccos h1.le h2.le

theorem dist_CA {a b c : ℝ} (ha : a < b + c) (hb : b < a + c) (hc : c < a + b) :
    distance ⟨0, 0⟩ (vertexA a b c) = b := by
  obtain ⟨hpa, hpb, hpc⟩ := tri_pos ha hb hc
  unfold distance vertexA
  have key : (-b * Real.cos (Real.arccos (cosC a b c)) - 0) ^ 2 +
      (-b * Real.sin (Real.arccos (cosC a b c)) - 0) ^ 2 = b ^ 2 := by
    have hsc := Real.sin_sq_add_cos_sq (Real.arccos (cosC a b c))
    linear_combination (b ^ 2) * hsc
  rw [key, Real.sqrt_sq hpb.le]

theorem dist_BA {a b c : ℝ} (ha : a < b + c) (hb : b < a + c) (hc : c < a + b) :
    distance ⟨-c, 0⟩ (vertexA a b c) = a := by
  obtain ⟨hpa, hpb, hpc⟩ := tri_pos ha hb hc
  unfold distance vertexA
  have hbc : (2 : ℝ) * b * c ≠ 0 := by positivity
  have hrel : 2 * b * c * Real.cos (Real.arccos (cosC a b c)) = b * b + c * c - a * a := by
    rw [cos_arccos_cosC ha hb hc, cosC_eq]
    field_simp
  have key : (-b * Real.cos (Real.arccos (cosC a b c)) - -c) ^ 2 +
      (-b * Real.sin (Real.arccos (cosC a b c)) - 0) ^ 2 = a ^ 2 := by
    have hsc := Real.sin_sq_add_cos_sq (Real.arccos (cosC a b c))
    linear_combination (b ^ 2) * hsc - hrel
  rw [key, Real.sqrt_sq hpa.le]

theorem distance_comm (p q : Point) : distance p q = distance q p := by
  unfold distance
  congr 1
  ring

theorem distance_self (p : Point) : distance p p = 0 := by
  simp [distance]

theorem triangleVertices_ok {a b c : ℝ} (ha : a < b + c) (hb : b < a + c) (hc : c < a + b) :
    triangleVertices a b c = Except.ok (⟨0, 0⟩, ⟨-c, 0⟩, vertexA a b c) := by
  unfold triangleVertices
  rw [if_neg]
  push_neg
  exact ⟨by linarith, by linarith, by linarith⟩

theorem triangleVertices_err {a b c : ℝ} (h : a ≥ b + c ∨ b ≥ a + c ∨ c ≥ a + b) :
    triangleVertices a b c = Except.error GeometryError.invalidTriangle := by
  unfold triangleVertices
  rw [if_pos h]

theorem distance_sq (p q : Point) :
    distance p q ^ 2 = (q.x - p.x) ^ 2 + (q.y - p.y) ^ 2 := by
  unfold distance
  exact Real.sq_sqrt (by positivity)

theorem cos_atan2 {y x : ℝ} (h : ¬(x = 0 ∧ y = 0)) :
    Real.cos (atan2 y x) = x / Real.sqrt (x ^ 2 + y ^ 2) := by
  have hz : (⟨x, y⟩ : ℂ) ≠ 0 := by
    simp only [ne_eq, Complex.ext_iff, Complex.zero_re, Complex.zero_im]
    exact h
  unfold atan2
  rw [Complex.cos_arg hz, Complex.abs_apply, Complex.normSq_mk,
    show x * x + y * y = x ^ 2 + y ^ 2 by ring]

theorem sin_atan2 (y x : ℝ) :
    Real.sin (atan2 y x) = y / Real.sqrt (x ^ 2 + y ^ 2) := by
  unfold atan2
  rw [Complex.sin_arg, Complex.abs_apply, Complex.normSq_mk,
    show x * x + y * y = x ^ 2 + y ^ 2 by ring]

theorem cosApexA_eq (vA vB : Point) (lA lB : ℝ) :
    cosApexA vA vB lA lB =
      (lA * lA + distance vA vB * distance vA vB - lB * lB) / (2 * lA * distance vA vB) := by
  unfold cosApexA
  rw [show lB * lB - lA * lA - distance vA vB * distance vA vB =
      -(lA * lA + distance vA vB * distance vA vB - lB * lB) by ring,
    show (-2 : ℝ) * lA * distance vA vB = -(2 * lA * distance vA vB) by ring,
    neg_div_neg_eq]

theorem cosApexA_bounds {vA vB : Point} {lA lB : ℝ}
    (t1 : lA < lB + distance vA vB) (t2 : lB < lA + distance vA vB)
    (t3 : distance vA vB < lA + lB) :
    -1 < cosApexA vA vB lA lB ∧ cosApexA vA vB lA lB < 1 := by
  rw [cosApexA_eq]
  exact cosLaw_bounds t2 t1 (by linarith [t3])

theorem apex_alg {L D B ce se cα sα dx dy : ℝ}
    (hS : se ^ 2 + ce ^ 2 = 1) (hT : sα ^ 2 + cα ^ 2 = 1)
    (hrel : 2 * L * D * cα = L * L + D * D - B * B)
    (hdx : dx = D * ce) (hdy : dy = D * se) :
    (L * (ce * cα + se * sα) - dx) ^ 2 + (L * (se * cα - ce * sα) - dy) ^ 2 = B ^ 2 := by
  subst hdx
  subst hdy
  linear_combination (L ^ 2 * (se ^ 2 + ce ^ 2)) * hT + B ^ 2 * hS - (se ^ 2 + ce ^ 2) * hrel

theorem cross_alg {L D ce se cα sα dx dy : ℝ}
    (hS : se ^ 2 + ce ^ 2 = 1) (hdx : dx = D * ce) (hdy : dy = D * se) :
    dx * (L * (se * cα - ce * sα)) - dy * (L * (ce * cα + se * sα)) = -(L * D * sα) := by
  subst hdx
  subst hdy
  linear_combination (-(L * D * sα)) * hS

theorem triangleFromVerticesAndEdges_ok {vA vB : Point} {lA lB : ℝ}
    (hA : 0 < lA) (hB : 0 < lB)
    (t1 : lA < lB + distance vA vB) (t2 : lB < lA + distance vA vB)
    (t3 : distance vA vB < lA + lB) :
    triangleFromVerticesAndEdges vA vB lA lB = Except.ok (apexPoint vA vB lA lB) := by
  unfold triangleFromVerticesAndEdges
  rw [if_neg, if_neg]
  · push_neg
    exact ⟨by linarith, by linarith, by linarith⟩
  · push_neg
    exact ⟨by linarith, by linarith⟩

theorem apex_spec {vA vB : Point} {lA lB : ℝ} (hA : 0 < lA) (hB : 0 < lB)
    (t1 : lA < lB + distance vA vB) (t2 : lB < lA + distance vA vB)
    (t3 : distance vA vB < lA + lB) :
    distance vA (apexPoint vA vB lA lB) = lA ∧
    distance vB (apexPoint vA vB lA lB) = lB ∧
    (vB.x - vA.x) * ((apexPoint vA vB lA lB).y - vA.y) -
      (vB.y - vA.y) * ((apexPoint vA vB lA lB).x - vA.x) < 0 := by
  have hdpos : 0 < distance vA vB := by linarith
  have hd2 : distance vA vB ^ 2 = (vB.x - vA.x) ^ 2 + (vB.y - vA.y) ^ 2 := distance_sq vA vB
  have hsum_pos : 0 < (vB.x - vA.x) ^ 2 + (vB.y - vA.y) ^ 2 := by nlinarith
  have hne : ¬(vB.x - vA.x = 0 ∧ vB.y - vA.y = 0) := by
    rintro ⟨h1, h2⟩
    rw [h1, h2] at hsum_pos
    norm_num at hsum_pos
  have hsqrt : Real.sqrt ((vB.x - vA.x) ^ 2 + (vB.y - vA.y) ^ 2) = distance vA vB := rfl
  have hcos_e : Real.cos (atan2 (vB.y - vA.y) (vB.x - vA.x)) =
      (vB.x - vA.x) / distance vA vB := by
    rw [cos_atan2 hne, hsqrt]
  have hsin_e : Real.sin (atan2 (vB.y - vA.y) (vB.x - vA.x)) =
      (vB.y - vA.y) / distance vA vB := by
    rw [sin_atan2, hsqrt]
  have hdx : vB.x - vA.x = distance vA vB * Real.cos (atan2 (vB.y - vA.y) (vB.x - vA.x)) := by
    rw [hcos_e]
    field_simp
  have hdy : vB.y - vA.y = distance vA vB * Real.sin (atan2 (vB.y - vA.y) (vB.x - vA.x)) := by
    rw [hsin_e]
    field_simp
  obtain ⟨hm1, hm2⟩ := cosApexA_bounds t1 t2 t3
  have hcosα : Real.cos (Real.arccos (cosApexA vA vB lA lB)) = cosApexA vA vB lA lB :=
    Real.cos_arccos hm1.le hm2.le
  have hrelα : 2 * lA * distance vA vB * Real.cos (Real.arccos (cosApexA vA vB lA lB)) =
      lA * lA + distance vA vB * distance vA vB - lB * lB := by
    rw [hcosα, cosApexA_eq]
    field_simp
  have hsinα_pos : 0 < Real.sin (Real.arccos (cosApexA vA vB lA lB)) := by
    rw [Real.sin_arccos]
    apply Real.sqrt_pos.mpr
    nlinarith
  have hS := Real.sin_sq_add_cos_sq (atan2 (vB.y - vA.y) (vB.x - vA.x))
  have hT := Real.sin_sq_add_cos_sq (Real.arccos (cosApexA vA vB lA lB))
  have hax : (apexPoint vA vB lA lB).x - vA.x =
      lA * Real.cos (atan2 (vB.y - vA.y) (vB.x - vA.x) -
        Real.arccos (cosApexA vA vB lA lB)) := by
    unfold apexPoint
    ring
  have hay : (apexPoint vA vB lA lB).y - vA.y =
      lA * Real.sin (atan2 (vB.y - vA.y) (vB.x - vA.x) -
        Real.arccos (cosApexA vA vB lA lB)) := by
    unfold apexPoint
    ring
  refine ⟨?_, ?_, ?_⟩
  · unfold distance
    rw [show (apexPoint vA vB lA lB).x - vA.x = (apexPoint vA vB lA lB).x - vA.x from rfl] at hax
    rw [hax, hay]
    have key : (lA * Real.cos (atan2 (vB.y - vA.y) (vB.x - vA.x) -
          Real.arccos (cosApexA vA vB lA lB))) ^ 2 +
        (lA * Real.sin (atan2 (vB.y - vA.y) (vB.x - vA.x) -
          Real.arccos (cosApexA vA vB lA lB))) ^ 2 = lA ^ 2 := by
      have hTd := Real.sin_sq_add_cos_sq (atan2 (vB.y - vA.y) (vB.x - vA.x) -
        Real.arccos (cosApexA vA vB lA lB))
      linear_combination (lA ^ 2) * hTd
    rw [key, Real.sqrt_sq hA.le]
  · unfold distance
    have haxB : (apexPoint vA vB lA lB).x - vB.x =
        lA * Real.cos (atan2 (vB.y - vA.y) (vB.x - vA.x) -
          Real.arccos (cosApexA vA vB lA lB)) - (vB.x - vA.x) := by
      rw [← hax]
      ring
    have hayB : (apexPoint vA vB lA lB).y - vB.y =
        lA * Real.sin (atan2 (vB.y - vA.y) (vB.x - vA.x) -
          Real.arccos (cosApexA vA vB lA lB)) - (vB.y - vA.y) := by
      rw [← hay]
      ring
    rw [haxB, hayB, Real.cos_sub, Real.sin_sub, apex_alg hS hT hrelα hdx hdy,
      Real.sqrt_sq hB.le]
  · rw [hax, hay, Real.cos_sub, Real.sin_sub, cross_alg hS hdx hdy]
    have : 0 < lA * distance vA vB * Real.sin (Real.arccos (cosApexA vA vB lA lB)) := by
      positivity
    linarith

theorem triangleVerticesNamed_ok {sideA sideB sideC : NamedSide}
    (ha : sideA.value < sideB.value + sideC.value)
    (hb : sideB.value < sideA.value + sideC.value)
    (hc : sideC.value < sideA.value + sideB.value) :
    triangleVerticesNamed sideA sideB sideC =
      Except.ok (⟨0, 0⟩, ⟨-sideC.value, 0⟩, vertexA sideA.value sideB.value sideC.value) := by
  unfold triangleVerticesNamed
  rw [triangleVertices_ok ha hb hc]

/-! Shared lemmas about body transforms and the rig construction. -/

theorem rotatePoint_zero (p : Point) : rotatePoint 0 p = p := by
  unfold rotatePoint
  ext <;> simp

theorem rotatePoint_origin (θ : ℝ) : rotatePoint θ ⟨0, 0⟩ = ⟨0, 0⟩ := by
  unfold rotatePoint
  ext <;> simp

theorem worldPoint_zero_angle (pos : Point) (q : Point) :
    worldPoint ⟨pos, 0⟩ q = pos + q := by
  unfold worldPoint
  rw [rotatePoint_zero]

theorem worldPoint_origin (pose : Pose) : worldPoint pose ⟨0, 0⟩ = pose.position := by
  unfold worldPoint
  rw [rotatePoint_origin, Point.add_def]
  ext <;> simp

theorem normalize_unit {v : Point} {n : ℝ} (h : Real.sqrt (v.x ^ 2 + v.y ^ 2) = n)
    (hn : 0 < n) : (normalize v).x ^ 2 + (normalize v).y ^ 2 = 1 := by
  have hsq : v.x ^ 2 + v.y ^ 2 = n ^ 2 := by
    rw [← h]
    exact (Real.sq_sqrt (by positivity)).symm
  unfold normalize
  simp only
  rw [h, div_pow, div_pow, div_add_div_same, hsq]
  field_simp

theorem normalize_scale {v : Point} {n : ℝ} (h : Real.sqrt (v.x ^ 2 + v.y ^ 2) = n)
    (hn : 0 < n) : n * (normalize v).x = v.x ∧ n * (normalize v).y = v.y := by
  unfold normalize
  simp only
  rw [h]
  constructor <;> field_simp

theorem rotatePoint_fork {u : Point} (hu : u.x ^ 2 + u.y ^ 2 = 1) (L : ℝ) :
    rotatePoint (atan2 u.y u.x - Real.pi / 2) ⟨0, -L⟩ = ⟨-L * u.x, -L * u.y⟩ := by
  have hne : ¬(u.x = 0 ∧ u.y = 0) := by
    rintro ⟨h1, h2⟩
    rw [h1, h2] at hu
    norm_num at hu
  have hs : Real.sqrt (u.x ^ 2 + u.y ^ 2) = 1 := by
    rw [hu, Real.sqrt_one]
  have hcos : Real.cos (atan2 u.y u.x) = u.x := by
    rw [cos_atan2 hne, hs, div_one]
  have hsin : Real.sin (atan2 u.y u.x) = u.y := by
    rw [sin_atan2, hs, div_one]
  unfold rotatePoint
  rw [Real.cos_sub, Real.sin_sub, Real.cos_pi_div_two, Real.sin_pi_div_two, hcos, hsin]
  ext <;> simp

theorem forkAxisOf_unit {headTubeTop headTubeBottom : Point} {n : ℝ}
    (h : distance headTubeBottom headTubeTop = n) (hn : 0 < n) :
    (forkAxisOf headTubeTop headTubeBottom).x ^ 2 +
      (forkAxisOf headTubeTop headTubeBottom).y ^ 2 = 1 := by
  have h' : Real.sqrt ((headTubeTop.x - headTubeBottom.x) ^ 2 +
      (headTubeTop.y - headTubeBottom.y) ^ 2) = n := h
  unfold forkAxisOf
  exact normalize_unit h' hn

theorem forkAxisOf_scale {headTubeTop headTubeBottom : Point} {n : ℝ}
    (h : distance headTubeBottom headTubeTop = n) (hn : 0 < n) :
    n * (forkAxisOf headTubeTop headTubeBottom).x = headTubeTop.x - headTubeBottom.x ∧
    n * (forkAxisOf headTubeTop headTubeBottom).y = headTubeTop.y - headTubeBottom.y := by
  have h' : Real.sqrt ((headTubeTop.x - headTubeBottom.x) ^ 2 +
      (headTubeTop.y - headTubeBottom.y) ^ 2) = n := h
  unfold forkAxisOf
  exact normalize_scale h' hn

theorem buildRig_spec (params : Params) (headTubeBottom headTubeTop : Point)
    (hlen : distance headTubeBottom headTubeTop = params.frame.headTubeLength.value)
    (hpos : 0 < params.frame.headTubeLength.value) :
    (buildRig params ⟨0, 0⟩ headTubeBottom headTubeTop).spring.length =
      params.frame.bottomForkTubeLength.value + params.frame.topForkTubeLength.value -
      params.frame.headTubeLength.value ∧
    (buildRig params ⟨0, 0⟩ headTubeBottom headTubeTop).prismatic.localAxisA.x ^ 2 +
      (buildRig params ⟨0, 0⟩ headTubeBottom headTubeTop).prismatic.localAxisA.y ^ 2 = 1 ∧
    worldPoint (buildRig params ⟨0, 0⟩ headTubeBottom headTubeTop).framePose
        (buildRig params ⟨0, 0⟩ headTubeBottom headTubeTop).prismatic.localAnchorA =
      worldPoint (buildRig params ⟨0, 0⟩ headTubeBottom headTubeTop).bottomForkPose
        (buildRig params ⟨0, 0⟩ headTubeBottom headTubeTop).prismatic.localAnchorB ∧
    worldPoint (buildRig params ⟨0, 0⟩ headTubeBottom headTubeTop).framePose
        (buildRig params ⟨0, 0⟩ headTubeBottom headTubeTop).spring.localAnchorA -
      worldPoint (buildRig params ⟨0, 0⟩ headTubeBottom headTubeTop).bottomForkPose
        (buildRig params ⟨0, 0⟩ headTubeBottom headTubeTop).spring.localAnchorB =
      (buildRig params ⟨0, 0⟩ headTubeBottom headTubeTop).spring.length •
        (buildRig params ⟨0, 0⟩ headTubeBottom headTubeTop).prismatic.localAxisA ∧
    worldPoint (buildRig params ⟨0, 0⟩ headTubeBottom headTubeTop).bottomForkPose
        (buildRig params ⟨0, 0⟩ headTubeBottom headTubeTop).forkFrontWheelJoint.localAnchorA =
      worldPoint (buildRig params ⟨0, 0⟩ headTubeBottom headTubeTop).frontWheelPose
        (buildRig params ⟨0, 0⟩ headTubeBottom headTubeTop).forkFrontWheelJoint.localAnchorB ∧
    worldPoint (buildRig params ⟨0, 0⟩ headTubeBottom headTubeTop).framePose
        (buildRig params ⟨0, 0⟩ headTubeBottom headTubeTop).frameSwingarmJoint.localAnchorA =
      worldPoint (buildRig params ⟨0, 0⟩ headTubeBottom headTubeTop).swingarmPose
        (buildRig params ⟨0, 0⟩ headTubeBottom headTubeTop).frameSwingarmJoint.localAnchorB ∧
    worldPoint (buildRig params ⟨0, 0⟩ headTubeBottom headTubeTop).swingarmPose
        (buildRig params ⟨0, 0⟩ headTubeBottom headTubeTop).swingarmRearWheelJoint.localAnchorA =
      worldPoint (buildRig params ⟨0, 0⟩ headTubeBottom headTubeTop).rearWheelPose
        (buildRig params ⟨0, 0⟩ headTubeBottom headTubeTop).swingarmRearWheelJoint.localAnchorB := by
  have hunit := forkAxisOf_unit hlen hpos
  obtain ⟨hax, hay⟩ := forkAxisOf_scale hlen hpos
  unfold buildRig
  simp only []
  refine ⟨by trivial, by exact hunit, ?_, ?_, ?_, by trivial, ?_⟩
  · rw [worldPoint_zero_angle, worldPoint_origin]
    ext <;> simp [Point.add_def]
  · unfold worldPoint
    rw [rotatePoint_zero, rotatePoint_fork hunit]
    ext
    · simp [Point.add_def, Point.sub_def, Point.smul_def]
      linear_combination hax
    · simp [Point.add_def, Point.sub_def, Point.smul_def]
      linear_combination hay
  · unfold worldPoint
    rw [rotatePoint_fork hunit, rotatePoint_origin]
    ext <;> simp [Point.add_def] <;> ring
  · rw [worldPoint_zero_angle, worldPoint_origin]
    ext <;> simp [Point.add_def]

theorem createWorldRig_ok (p : Params)
    (h1 : p.frame.headTubeLength.value <
      p.frame.swingArmPivotToHeadTubeTopCenter.value +
      p.frame.swingArmPivotToHeadTubeBottomCenter.value)
    (h2 : p.frame.swingArmPivotToHeadTubeTopCenter.value <
      p.frame.headTubeLength.value + p.frame.swingArmPivotToHeadTubeBottomCenter.value)
    (h3 : p.frame.swingArmPivotToHeadTubeBottomCenter.value <
      p.frame.headTubeLength.value + p.frame.swingArmPivotToHeadTubeTopCenter.value)
    (h4 : 0 < p.frame.rearShockUpperPivotToHeadTubeTop.value)
    (h5 : 0 < p.frame.rearShockUpperPivotToFramePivot.value)
    (h6 : p.frame.rearShockUpperPivotToHeadTubeTop.value <
      p.frame.rearShockUpperPivotToFramePivot.value +
      p.frame.swingArmPivotToHeadTubeTopCenter.value)
    (h7 : p.frame.rearShockUpperPivotToFramePivot.value <
      p.frame.rearShockUpperPivotToHeadTubeTop.value +
      p.frame.swingArmPivotToHeadTubeTopCenter.value)
    (h8 : p.frame.swingArmPivotToHeadTubeTopCenter.value <
      p.frame.rearShockUpperPivotToHeadTubeTop.value +
      p.frame.rearShockUpperPivotToFramePivot.value) :
    createWorldRig p = Except.ok (buildRig p ⟨0, 0⟩
      ⟨-p.frame.swingArmPivotToHeadTubeBottomCenter.value, 0⟩
      (vertexA p.frame.headTubeLength.value
        p.frame.swingArmPivotToHeadTubeTopCenter.value
        p.frame.swingArmPivotToHeadTubeBottomCenter.value)) := by
  have hdist : distance
      (vertexA p.frame.headTubeLength.value p.frame.swingArmPivotToHeadTubeTopCenter.value
        p.frame.swingArmPivotToHeadTubeBottomCenter.value) ⟨0, 0⟩ =
      p.frame.swingArmPivotToHeadTubeTopCenter.value := by
    rw [distance_comm]
    exact dist_CA h1 h2 h3
  have happx : triangleFromVerticesAndEdges
      (vertexA p.frame.headTubeLength.value p.frame.swingArmPivotToHeadTubeTopCenter.value
        p.frame.swingArmPivotToHeadTubeBottomCenter.value) ⟨0, 0⟩
      p.frame.rearShockUpperPivotToHeadTubeTop.value
      p.frame.rearShockUpperPivotToFramePivot.value =
      Except.ok (apexPoint
        (vertexA p.frame.headTubeLength.value p.frame.swingArmPivotToHeadTubeTopCenter.value
          p.frame.swingArmPivotToHeadTubeBottomCenter.value) ⟨0, 0⟩
        p.frame.rearShockUpperPivotToHeadTubeTop.value
        p.frame.rearShockUpperPivotToFramePivot.value) :=
    triangleFromVerticesAndEdges_ok h4 h5 (by rw [hdist]; exact h6) (by rw [hdist]; exact h7)
      (by rw [hdist]; exact h8)
  unfold createWorldRig
  rw [triangleVerticesNamed_ok h1 h2 h3]
  simp only []
  rw [happx]

theorem triangleVerticesNamed_err {sideA sideB sideC : NamedSide}
    (h : sideA.value ≥ sideB.value + sideC.value ∨ sideB.value ≥ sideA.value + sideC.value ∨
      sideC.value ≥ sideA.value + sideB.value) :
    ∃ e, triangleVerticesNamed sideA sideB sideC = Except.error e := by
  unfold triangleVerticesNamed
  rw [triangleVertices_err h]
  exact ⟨_, rfl⟩

theorem triangleVerticesNamed_ok_inv {sideA sideB sideC : NamedSide}
    {fv : Point × Point × Point} (h : triangleVerticesNamed sideA sideB sideC = Except.ok fv) :
    fv = (⟨0, 0⟩, ⟨-sideC.value, 0⟩, vertexA sideA.value sideB.value sideC.value) := by
  unfold triangleVerticesNamed at h
  cases hx : triangleVertices sideA.value sideB.value sideC.value with
  | error e =>
    rw [hx] at h
    simp at h
  | ok v =>
    rw [hx] at h
    simp only [Except.ok.injEq] at h
    subst h
    unfold triangleVertices at hx
    split at hx
    · simp at hx
    · simp only [Except.ok.injEq] at hx
      exact hx.symm

theorem motorcycleConstruct_invalid (p : Params) (w : WorldCount)
    (h : p.frame.headTubeLength.value ≥
        p.frame.swingArmPivotToHeadTubeTopCenter.value +
        p.frame.swingArmPivotToHeadTubeBottomCenter.value ∨
      p.frame.swingArmPivotToHeadTubeTopCenter.value ≥
        p.frame.headTubeLength.value + p.frame.swingArmPivotToHeadTubeBottomCenter.value ∨
      p.frame.swingArmPivotToHeadTubeBottomCenter.value ≥
        p.frame.headTubeLength.value + p.frame.swingArmPivotToHeadTubeTopCenter.value) :
    motorcycleComponentConstruct p w = ({ w with bodies := w.bodies + 5 }, false) := by
  obtain ⟨e, he⟩ := triangleVerticesNamed_err h
  unfold motorcycleComponentConstruct
  rw [he]

theorem distanceJs_some (x1 y1 x2 y2 : ℝ) :
    distanceJs ⟨some x1, some y1⟩ ⟨some x2, some y2⟩ =
      some (distance ⟨x1, y1⟩ ⟨x2, y2⟩) := by
  unfold distanceJs distance jsqrt jadd jsub jmul
  simp only []
  rw [if_neg (not_lt.mpr (add_nonneg (mul_self_nonneg _) (mul_self_nonneg _)))]
  rw [show (x2 - x1) * (x2 - x1) + (y2 - y1) * (y2 - y1) =
    (x2 - x1) ^ 2 + (y2 - y1) ^ 2 by ring]

/-! Claim theorems. -/

/-- Claim C3: for all side lengths `(a, b, c)` with each side strictly less
than the sum of the other two, `triangleVertices` returns exactly the three
points `[C, B, A]` with `C = (0,0)` and `B = (-c, 0)` whose pairwise
distances reproduce `c`, `b`, `a` (exactly, in the real-number model); and
for any input with one side at least the sum of the other two it throws
before returning any geometry. -/
theorem c3_triangle_from_three_sides (a b c : ℝ) :
    (a < b + c → b < a + c → c < a + b →
      triangleVertices a b c = Except.ok (⟨0, 0⟩, ⟨-c, 0⟩, vertexA a b c) ∧
      distance ⟨0, 0⟩ ⟨-c, 0⟩ = c ∧
      distance ⟨0, 0⟩ (vertexA a b c) = b ∧
      distance ⟨-c, 0⟩ (vertexA a b c) = a) ∧
    (a ≥ b + c ∨ b ≥ a + c ∨ c ≥ a + b →
      triangleVertices a b c = Except.error GeometryError.invalidTriangle) := by
  constructor
  · intro ha hb hc
    obtain ⟨hpa, hpb, hpc⟩ := tri_pos ha hb hc
    refine ⟨triangleVertices_ok ha hb hc, ?_, dist_CA ha hb hc, dist_BA ha hb hc⟩
    unfold distance
    rw [show (-c - 0) ^ 2 + ((0 : ℝ) - 0) ^ 2 = c ^ 2 by ring, Real.sqrt_sq hpc.le]
  · exact triangleVertices_err

/-- Claim C3 witness: `triangleVertices(3,4,5)` yields `C = (0,0)`,
`B = (-5,0)` and a third vertex at distances 4 and 3, a right triangle
(`3² + 4² = 5²`); `triangleVertices(1,1,3)` throws. -/
theorem c3_triangle_from_three_sides_witness :
    (triangleVertices 3 4 5 = Except.ok (⟨0, 0⟩, ⟨-5, 0⟩, vertexA 3 4 5) ∧
      distance ⟨0, 0⟩ ⟨-5, 0⟩ = 5 ∧
      distance ⟨0, 0⟩ (vertexA 3 4 5) = 4 ∧
      distance ⟨-5, 0⟩ (vertexA 3 4 5) = 3 ∧
      (3 : ℝ) ^ 2 + 4 ^ 2 = 5 ^ 2) ∧
    triangleVertices 1 1 3 = Except.error GeometryError.invalidTriangle := by
  obtain ⟨hok, d1, d2, d3⟩ :=
    (c3_triangle_from_three_sides 3 4 5).1 (by norm_num) (by norm_num) (by norm_num)
  exact ⟨⟨hok, d1, d2, d3, by norm_num⟩,
    (c3_triangle_from_three_sides 1 1 3).2 (by norm_num)⟩

/-- Claim C7: for all inputs passing the triangle-inequality validation in
`triangleVertices`, the law-of-cosines argument
`cosC = (a² - b² - c²) / (-2bc)` lies in `[-1, 1]` (so `acos` is applied
within its domain), and `triangleVertices` returns a well-defined vertex
triple (in the real-number model every coordinate is a real number, never
NaN). -/
theorem c7_cosC_domain (a b c : ℝ) (ha : a < b + c) (hb : b < a + c) (hc : c < a + b) :
    (-1 ≤ cosC a b c ∧ cosC a b c ≤ 1) ∧
    ∃ v, triangleVertices a b c = Except.ok v := by
  obtain ⟨h1, h2⟩ := cosC_bounds ha hb hc
  exact ⟨⟨h1.le, h2.le⟩, _, triangleVertices_ok ha hb hc⟩

/-- Claim C7 witness at `(3, 4, 5)`. -/
theorem c7_cosC_domain_witness :
    (-1 ≤ cosC 3 4 5 ∧ cosC 3 4 5 ≤ 1) ∧ ∃ v, triangleVertices 3 4 5 = Except.ok v :=
  c7_cosC_domain 3 4 5 (by norm_num) (by norm_num) (by norm_num)

/-- Claim C6: for distinct points and positive lengths satisfying the
triangle inequality with `lengthC = |vertexA - vertexB|`,
`triangleFromVerticesAndEdges` returns an apex `C` with
`distance(vertexA, C) = lengthA` and `distance(vertexB, C) = lengthB`
(exactly, in the real-number model), wound clockwise relative to the
`A→B` edge direction (negative cross product). -/
theorem c6_apex_correctness (vA vB : Point) (lA lB : ℝ)
    (_hne : vA ≠ vB) (hA : 0 < lA) (hB : 0 < lB)
    (t1 : lA < lB + distance vA vB) (t2 : lB < lA + distance vA vB)
    (t3 : distance vA vB < lA + lB) :
    triangleFromVerticesAndEdges vA vB lA lB = Except.ok (apexPoint vA vB lA lB) ∧
    distance vA (apexPoint vA vB lA lB) = lA ∧
    distance vB (apexPoint vA vB lA lB) = lB ∧
    (vB.x - vA.x) * ((apexPoint vA vB lA lB).y - vA.y) -
      (vB.y - vA.y) * ((apexPoint vA vB lA lB).x - vA.x) < 0 := by
  obtain ⟨d1, d2, d3⟩ := apex_spec hA hB t1 t2 t3
  exact ⟨triangleFromVerticesAndEdges_ok hA hB t1 t2 t3, d1, d2, d3⟩

/-- Claim C6 witness: for `vertexA = (0,0)`, `vertexB = (3,0)`,
`lengthA = 4`, `lengthB = 5` the apex satisfies `distance(A,C) = 4`,
`distance(B,C) = 5` and `C.y < 0`. -/
theorem c6_apex_correctness_witness :
    triangleFromVerticesAndEdges ⟨0, 0⟩ ⟨3, 0⟩ 4 5 =
      Except.ok (apexPoint ⟨0, 0⟩ ⟨3, 0⟩ 4 5) ∧
    distance ⟨0, 0⟩ (apexPoint ⟨0, 0⟩ ⟨3, 0⟩ 4 5) = 4 ∧
    distance ⟨3, 0⟩ (apexPoint ⟨0, 0⟩ ⟨3, 0⟩ 4 5) = 5 ∧
    (apexPoint ⟨0, 0⟩ ⟨3, 0⟩ 4 5).y < 0 := by
  have hd : distance ⟨0, 0⟩ ⟨3, 0⟩ = 3 := by
    unfold distance
    rw [show ((3 : ℝ) - 0) ^ 2 + ((0 : ℝ) - 0) ^ 2 = 3 ^ 2 by norm_num,
      Real.sqrt_sq (by norm_num)]
  obtain ⟨hok, d1, d2, hcross⟩ := c6_apex_correctness ⟨0, 0⟩ ⟨3, 0⟩ 4 5
    (by simp [Point.mk.injEq]) (by norm_num) (by norm_num)
    (by rw [hd]; norm_num) (by rw [hd]; norm_num) (by rw [hd]; norm_num)
  refine ⟨hok, d1, d2, ?_⟩
  simp only at hcross
  nlinarith [hcross]

/-- Claim C1 counterexample: immediately after rig construction from the
valid parameter set `exampleParams`, the distance (spring) joint's two
world-space anchors do NOT coincide — refuting the claim that every joint,
including the frame-to-bottom-fork distance joint, has coinciding anchors. -/
theorem c1_joint_anchor_counterexample :
    ∃ rig : Rig, createWorldRig exampleParams = Except.ok rig ∧
      worldPoint rig.framePose rig.spring.localAnchorA ≠
        worldPoint rig.bottomForkPose rig.spring.localAnchorB := by
  have hok := createWorldRig_ok exampleParams
    (by norm_num [exampleParams, exampleFrame]) (by norm_num [exampleParams, exampleFrame])
    (by norm_num [exampleParams, exampleFrame]) (by norm_num [exampleParams, exampleFrame])
    (by norm_num [exampleParams, exampleFrame]) (by norm_num [exampleParams, exampleFrame])
    (by norm_num [exampleParams, exampleFrame]) (by norm_num [exampleParams, exampleFrame])
  have hpa : (0 : ℝ) < exampleParams.frame.headTubeLength.value := by
    norm_num [exampleParams, exampleFrame]
  have hfacts := buildRig_spec exampleParams
    ⟨-exampleParams.frame.swingArmPivotToHeadTubeBottomCenter.value, 0⟩
    (vertexA exampleParams.frame.headTubeLength.value
      exampleParams.frame.swingArmPivotToHeadTubeTopCenter.value
      exampleParams.frame.swingArmPivotToHeadTubeBottomCenter.value)
    (dist_BA (by norm_num [exampleParams, exampleFrame])
      (by norm_num [exampleParams, exampleFrame]) (by norm_num [exampleParams, exampleFrame]))
    hpa
  refine ⟨_, hok, ?_⟩
  intro heq
  have hlen := hfacts.1
  have hunit := hfacts.2.1
  have hsep := hfacts.2.2.2.1
  rw [heq] at hsep
  have hx := congrArg Point.x hsep
  have hy := congrArg Point.y hsep
  simp only [Point.sub_def, Point.smul_def] at hx hy
  have hl5 : (buildRig exampleParams ⟨0, 0⟩
      ⟨-exampleParams.frame.swingArmPivotToHeadTubeBottomCenter.value, 0⟩
      (vertexA exampleParams.frame.headTubeLength.value
        exampleParams.frame.swingArmPivotToHeadTubeTopCenter.value
        exampleParams.frame.swingArmPivotToHeadTubeBottomCenter.value)).spring.length = 5 := by
    rw [hlen]
    norm_num [exampleParams, exampleFrame]
  rw [hl5] at hx hy
  have hx0 : (buildRig exampleParams ⟨0, 0⟩
      ⟨-exampleParams.frame.swingArmPivotToHeadTubeBottomCenter.value, 0⟩
      (vertexA exampleParams.frame.headTubeLength.value
        exampleParams.frame.swingArmPivotToHeadTubeTopCenter.value
        exampleParams.frame.swingArmPivotToHeadTubeBottomCenter.value)).prismatic.localAxisA.x
      = 0 := by linarith
  have hy0 : (buildRig exampleParams ⟨0, 0⟩
      ⟨-exampleParams.frame.swingArmPivotToHeadTubeBottomCenter.value, 0⟩
      (vertexA exampleParams.frame.headTubeLength.value
        exampleParams.frame.swingArmPivotToHeadTubeTopCenter.value
        exampleParams.frame.swingArmPivotToHeadTubeBottomCenter.value)).prismatic.localAxisA.y
      = 0 := by linarith
  rw [hx0, hy0] at hunit
  norm_num at hunit

/-- Claim C1 (amended): immediately after rig construction from any valid
parameter set, the prismatic joint and all three revolute joints have
coinciding world-space anchors (exactly, in the real-number model), while
the distance (spring) joint's anchors are separated by exactly its rest
length along the fork axis (`anchorA - anchorB = restLength • forkAxis`,
zero constraint error for a distance joint, but not coincidence unless the
rest length is zero). -/
theorem c1_joint_anchor_amended (p : Params)
    (h1 : p.frame.headTubeLength.value <
      p.frame.swingArmPivotToHeadTubeTopCenter.value +
      p.frame.swingArmPivotToHeadTubeBottomCenter.value)
    (h2 : p.frame.swingArmPivotToHeadTubeTopCenter.value <
      p.frame.headTubeLength.value + p.frame.swingArmPivotToHeadTubeBottomCenter.value)
    (h3 : p.frame.swingArmPivotToHeadTubeBottomCenter.value <
      p.frame.headTubeLength.value + p.frame.swingArmPivotToHeadTubeTopCenter.value)
    (h4 : 0 < p.frame.rearShockUpperPivotToHeadTubeTop.value)
    (h5 : 0 < p.frame.rearShockUpperPivotToFramePivot.value)
    (h6 : p.frame.rearShockUpperPivotToHeadTubeTop.value <
      p.frame.rearShockUpperPivotToFramePivot.value +
      p.frame.swingArmPivotToHeadTubeTopCenter.value)
    (h7 : p.frame.rearShockUpperPivotToFramePivot.value <
      p.frame.rearShockUpperPivotToHeadTubeTop.value +
      p.frame.swingArmPivotToHeadTubeTopCenter.value)
    (h8 : p.frame.swingArmPivotToHeadTubeTopCenter.value <
      p.frame.rearShockUpperPivotToHeadTubeTop.value +
      p.frame.rearShockUpperPivotToFramePivot.value) :
    ∃ rig : Rig, createWorldRig p = Except.ok rig ∧
      worldPoint rig.framePose rig.prismatic.localAnchorA =
        worldPoint rig.bottomForkPose rig.prismatic.localAnchorB ∧
      worldPoint rig.bottomForkPose rig.forkFrontWheelJoint.localAnchorA =
        worldPoint rig.frontWheelPose rig.forkFrontWheelJoint.localAnchorB ∧
      worldPoint rig.framePose rig.frameSwingarmJoint.localAnchorA =
        worldPoint rig.swingarmPose rig.frameSwingarmJoint.localAnchorB ∧
      worldPoint rig.swingarmPose rig.swingarmRearWheelJoint.localAnchorA =
        worldPoint rig.rearWheelPose rig.swingarmRearWheelJoint.localAnchorB ∧
      worldPoint rig.framePose rig.spring.localAnchorA -
        worldPoint rig.bottomForkPose rig.spring.localAnchorB =
        rig.spring.length • rig.prismatic.localAxisA := by
  obtain ⟨hpa, _hpb, _hpc⟩ := tri_pos h1 h2 h3
  have hok := createWorldRig_ok p h1 h2 h3 h4 h5 h6 h7 h8
  have hfacts := buildRig_spec p
    ⟨-p.frame.swingArmPivotToHeadTubeBottomCenter.value, 0⟩
    (vertexA p.frame.headTubeLength.value
      p.frame.swingArmPivotToHeadTubeTopCenter.value
      p.frame.swingArmPivotToHeadTubeBottomCenter.value)
    (dist_BA h1 h2 h3) hpa
  exact ⟨_, hok, hfacts.2.2.1, hfacts.2.2.2.2.1, hfacts.2.2.2.2.2.1,
    hfacts.2.2.2.2.2.2, hfacts.2.2.2.1⟩

/-- Claim C1 (amended) witness at the concrete valid parameter set
`exampleParams`. -/
theorem c1_joint_anchor_amended_witness :
    ∃ rig : Rig, createWorldRig exampleParams = Except.ok rig ∧
      worldPoint rig.framePose rig.prismatic.localAnchorA =
        worldPoint rig.bottomForkPose rig.prismatic.localAnchorB ∧
      worldPoint rig.bottomForkPose rig.forkFrontWheelJoint.localAnchorA =
        worldPoint rig.frontWheelPose rig.forkFrontWheelJoint.localAnchorB ∧
      worldPoint rig.framePose rig.frameSwingarmJoint.localAnchorA =
        worldPoint rig.swingarmPose rig.frameSwingarmJoint.localAnchorB ∧
      worldPoint rig.swingarmPose rig.swingarmRearWheelJoint.localAnchorA =
        worldPoint rig.rearWheelPose rig.swingarmRearWheelJoint.localAnchorB ∧
      worldPoint rig.framePose rig.spring.localAnchorA -
        worldPoint rig.bottomForkPose rig.spring.localAnchorB =
        rig.spring.length • rig.prismatic.localAxisA :=
  c1_joint_anchor_amended exampleParams
    (by norm_num [exampleParams, exampleFrame]) (by norm_num [exampleParams, exampleFrame])
    (by norm_num [exampleParams, exampleFrame]) (by norm_num [exampleParams, exampleFrame])
    (by norm_num [exampleParams, exampleFrame]) (by norm_num [exampleParams, exampleFrame])
    (by norm_num [exampleParams, exampleFrame]) (by norm_num [exampleParams, exampleFrame])

/-- Claim C2: for every valid frame parameter set, the rest length of the
constructed front-suspension distance joint equals
`bottomForkTubeLength + topForkTubeLength - headTubeLength` exactly. -/
theorem c2_spring_rest_length (p : Params)
    (h1 : p.frame.headTubeLength.value <
      p.frame.swingArmPivotToHeadTubeTopCenter.value +
      p.frame.swingArmPivotToHeadTubeBottomCenter.value)
    (h2 : p.frame.swingArmPivotToHeadTubeTopCenter.value <
      p.frame.headTubeLength.value + p.frame.swingArmPivotToHeadTubeBottomCenter.value)
    (h3 : p.frame.swingArmPivotToHeadTubeBottomCenter.value <
      p.frame.headTubeLength.value + p.frame.swingArmPivotToHeadTubeTopCenter.value)
    (h4 : 0 < p.frame.rearShockUpperPivotToHeadTubeTop.value)
    (h5 : 0 < p.frame.rearShockUpperPivotToFramePivot.value)
    (h6 : p.frame.rearShockUpperPivotToHeadTubeTop.value <
      p.frame.rearShockUpperPivotToFramePivot.value +
      p.frame.swingArmPivotToHeadTubeTopCenter.value)
    (h7 : p.frame.rearShockUpperPivotToFramePivot.value <
      p.frame.rearShockUpperPivotToHeadTubeTop.value +
      p.frame.swingArmPivotToHeadTubeTopCenter.value)
    (h8 : p.frame.swingArmPivotToHeadTubeTopCenter.value <
      p.frame.rearShockUpperPivotToHeadTubeTop.value +
      p.frame.rearShockUpperPivotToFramePivot.value) :
    ∃ rig : Rig, createWorldRig p = Except.ok rig ∧
      rig.spring.length = p.frame.bottomForkTubeLength.value +
        p.frame.topForkTubeLength.value - p.frame.headTubeLength.value :=
  ⟨_, createWorldRig_ok p h1 h2 h3 h4 h5 h6 h7 h8, rfl⟩

/-- Claim C2 witness at `exampleParams`: rest length `3 + 3 - 1 = 5`. -/
theorem c2_spring_rest_length_witness :
    ∃ rig : Rig, createWorldRig exampleParams = Except.ok rig ∧ rig.spring.length = 5 := by
  obtain ⟨rig, hok, hlen⟩ := c2_spring_rest_length exampleParams
    (by norm_num [exampleParams, exampleFrame]) (by norm_num [exampleParams, exampleFrame])
    (by norm_num [exampleParams, exampleFrame]) (by norm_num [exampleParams, exampleFrame])
    (by norm_num [exampleParams, exampleFrame]) (by norm_num [exampleParams, exampleFrame])
    (by norm_num [exampleParams, exampleFrame]) (by norm_num [exampleParams, exampleFrame])
  exact ⟨rig, hok, by rw [hlen]; norm_num [exampleParams, exampleFrame]⟩

/-- Claim C4 counterexample: constructing a `MotorcycleComponent` from the
triangle-inequality-violating parameter set `exampleBadParams` fails, but
the physics world has been mutated: five bodies were created before the
geometry validation threw, so construction does NOT abort before any body
is created. -/
theorem c4_construction_mutation_counterexample :
    (motorcycleComponentConstruct exampleBadParams ⟨0, 0, 0⟩).2 = false ∧
    (motorcycleComponentConstruct exampleBadParams ⟨0, 0, 0⟩).1 ≠ ⟨0, 0, 0⟩ := by
  rw [motorcycleConstruct_invalid exampleBadParams ⟨0, 0, 0⟩
    (by norm_num [exampleBadParams, exampleBadFrame, exampleFrame])]
  refine ⟨rfl, ?_⟩
  simp [WorldCount.mk.injEq]

/-- Claim C4 (amended): rig construction from a triangle-inequality-violating
parameter set throws before any fixture or joint is created, but only after
the five bodies (frame plus four children) have been created by the
`SimulationComponent` constructors; the failed construction therefore leaves
the world with exactly five additional bare bodies rather than untouched. -/
theorem c4_construction_mutation_amended (p : Params) (w : WorldCount)
    (h : p.frame.headTubeLength.value ≥
        p.frame.swingArmPivotToHeadTubeTopCenter.value +
        p.frame.swingArmPivotToHeadTubeBottomCenter.value ∨
      p.frame.swingArmPivotToHeadTubeTopCenter.value ≥
        p.frame.headTubeLength.value + p.frame.swingArmPivotToHeadTubeBottomCenter.value ∨
      p.frame.swingArmPivotToHeadTubeBottomCenter.value ≥
        p.frame.headTubeLength.value + p.frame.swingArmPivotToHeadTubeTopCenter.value) :
    motorcycleComponentConstruct p w = ({ w with bodies := w.bodies + 5 }, false) :=
  motorcycleConstruct_invalid p w h

/-- Claim C4 (amended) witness: from an empty world, the failed construction
leaves five bodies, no fixtures and no joints. -/
theorem c4_construction_mutation_amended_witness :
    motorcycleComponentConstruct exampleBadParams ⟨0, 0, 0⟩ = (⟨5, 0, 0⟩, false) := by
  rw [c4_construction_mutation_amended exampleBadParams ⟨0, 0, 0⟩
    (by norm_num [exampleBadParams, exampleBadFrame, exampleFrame])]

/-- Claim C5 (code bug): when the offending side is `sideB` (here
`"Top Tube"`, length 5, versus 1 and 1), the raised error does name
`"Top Tube"` as the culprit, but the payload pairs that name with
`sideA`'s value 1, and lists `sideB` (the culprit itself, with its value 5)
and `sideC` as the two sides it was compared with — it does not carry the
offending side's display name together with the two lengths it was compared
against (1 and 1). -/
theorem c5_named_error_payload_bug :
    triangleVerticesNamed ⟨"Head Tube", 1, "m"⟩ ⟨"Top Tube", 5, "m"⟩ ⟨"Down Tube", 1, "m"⟩ =
      Except.error (GeometryError.invalidGeometry "Top Tube" 1 "m" "Top Tube" 5 "m"
        "Down Tube" 1 "m") := by
  unfold triangleVerticesNamed
  rw [triangleVertices_err (by norm_num)]
  norm_num

/-- Claim C8 counterexample: a vertex object that is present but missing its
`y` field is not rejected by `triangleFromVerticesAndEdges`: the NaN edge
length makes every `>=` comparison false, so the function returns a NaN
point instead of throwing. -/
theorem c8_missing_field_counterexample :
    triangleFromVerticesAndEdgesJs (some ⟨some 0, none⟩) (some ⟨some 3, some 0⟩) 4 5 =
      Except.ok ⟨none, none⟩ := by
  unfold triangleFromVerticesAndEdgesJs distanceJs
  norm_num [jadd, jsub, jmul, jdiv, jge, jacos, jatan2, jcos, jsin, jsqrt]

/-- Claim C8 (amended): `triangleFromVerticesAndEdges` fails whenever
`vertexA` or `vertexB` is null/undefined, whenever `lengthA` or `lengthB`
is non-positive, and whenever the triangle inequality over
`(lengthA, lengthB, |vertexA - vertexB|)` is violated for fully-specified
points; a missing `x`/`y` field on a non-null vertex is not detected (see
the counterexample). -/
theorem c8_apex_error_amended :
    (∀ (vB : Option JsPoint) (lA lB : ℝ), triangleFromVerticesAndEdgesJs none vB lA lB =
      Except.error GeometryError.invalidInput) ∧
    (∀ (vA : Option JsPoint) (lA lB : ℝ), triangleFromVerticesAndEdgesJs vA none lA lB =
      Except.error GeometryError.invalidInput) ∧
    (∀ (pA pB : JsPoint) (lA lB : ℝ), lA ≤ 0 ∨ lB ≤ 0 →
      triangleFromVerticesAndEdgesJs (some pA) (some pB) lA lB =
        Except.error GeometryError.invalidLengths) ∧
    (∀ (x1 y1 x2 y2 lA lB : ℝ), 0 < lA → 0 < lB →
      (lA ≥ lB + distance ⟨x1, y1⟩ ⟨x2, y2⟩ ∨ lB ≥ lA + distance ⟨x1, y1⟩ ⟨x2, y2⟩ ∨
        distance ⟨x1, y1⟩ ⟨x2, y2⟩ ≥ lA + lB) →
      triangleFromVerticesAndEdgesJs (some ⟨some x1, some y1⟩) (some ⟨some x2, some y2⟩)
        lA lB = Except.error GeometryError.invalidTriangle) := by
  refine ⟨?_, ?_, ?_, ?_⟩
  · intro vB lA lB
    cases vB <;> rfl
  · intro vA lA lB
    cases vA <;> rfl
  · intro pA pB lA lB h
    unfold triangleFromVerticesAndEdgesJs
    simp only []
    rw [if_pos h]
  · intro x1 y1 x2 y2 lA lB hA hB h
    unfold triangleFromVerticesAndEdgesJs
    simp only []
    rw [if_neg (by push_neg; exact ⟨hA, hB⟩), distanceJs_some]
    have hcond : (jge (some lA) (jadd (some lB) (some (distance ⟨x1, y1⟩ ⟨x2, y2⟩))) ||
        jge (some lB) (jadd (some lA) (some (distance ⟨x1, y1⟩ ⟨x2, y2⟩))) ||
        jge (some (distance ⟨x1, y1⟩ ⟨x2, y2⟩)) (jadd (some lA) (some lB))) = true := by
      simp only [jadd, jge, Bool.or_eq_true, decide_eq_true_eq]
      tauto
    rw [if_pos hcond]

/-- Claim C8 (amended) witness: a null vertex, a negative length and a
`(1, 1, 3)`-type inequality violation each produce the corresponding
error. -/
theorem c8_apex_error_amended_witness :
    triangleFromVerticesAndEdgesJs none (some ⟨some 3, some 0⟩) 4 5 =
      Except.error GeometryError.invalidInput ∧
    triangleFromVerticesAndEdgesJs (some ⟨some 0, some 0⟩) (some ⟨some 3, some 0⟩) (-1) 5 =
      Except.error GeometryError.invalidLengths ∧
    triangleFromVerticesAndEdgesJs (some ⟨some 0, some 0⟩) (some ⟨some 3, some 0⟩) 1 1 =
      Except.error GeometryError.invalidTriangle := by
  have hd : distance ⟨0, 0⟩ ⟨3, 0⟩ = 3 := by
    unfold distance
    rw [show ((3 : ℝ) - 0) ^ 2 + ((0 : ℝ) - 0) ^ 2 = 3 ^ 2 by norm_num,
      Real.sqrt_sq (by norm_num)]
  refine ⟨c8_apex_error_amended.1 _ _ _,
    c8_apex_error_amended.2.2.1 _ _ _ _ (Or.inl (by norm_num)),
    c8_apex_error_amended.2.2.2 0 0 3 0 1 1 (by norm_num) (by norm_num) ?_⟩
  right
  right
  rw [hd]
  norm_num

/-- Claim C9: for every parameter set on which geometry generation succeeds,
the anchor set's `swingArmPivot` is exactly the origin `(0, 0)`, so
subtracting the swing-arm pivot when converting anchors to frame-local
coordinates is the identity map. -/
theorem c9_swingarm_pivot_origin (f : FrameParams) (s : SimParams) (g : MotoGeometry)
    (h : generateGeometry f s = Except.ok g) :
    g.swingArmPivot = ⟨0, 0⟩ ∧ ∀ v : Point, localToFrame g.swingArmPivot v = v := by
  unfold generateGeometry at h
  cases hx : triangleVerticesNamed f.headTubeLength f.swingArmPivotToHeadTubeTopCenter
      f.swingArmPivotToHeadTubeBottomCenter with
  | error e =>
    rw [hx] at h
    simp at h
  | ok fv =>
    rw [hx] at h
    have hfv := triangleVerticesNamed_ok_inv hx
    simp only [] at h
    cases ha : triangleFromVerticesAndEdges fv.2.2 fv.1
        f.rearShockUpperPivotToHeadTubeTop.value f.rearShockUpperPivotToFramePivot.value with
    | error e =>
      rw [ha] at h
      simp at h
    | ok apex =>
      rw [ha] at h
      simp only [Except.ok.injEq] at h
      subst h
      constructor
      · show fv.1 = ⟨0, 0⟩
        rw [hfv]
      · intro v
        show localToFrame fv.1 v = v
        rw [hfv]
        unfold localToFrame
        ext <;> simp

/-- Claim C9 witness: geometry generation succeeds on `exampleFrame` /
`exampleSim` and the swing-arm pivot is the origin. -/
theorem c9_swingarm_pivot_origin_witness :
    ∃ g : MotoGeometry, generateGeometry exampleFrame exampleSim = Except.ok g ∧
      g.swingArmPivot = ⟨0, 0⟩ ∧ ∀ v : Point, localToFrame g.swingArmPivot v = v := by
  have hdist : distance (vertexA exampleFrame.headTubeLength.value
      exampleFrame.swingArmPivotToHeadTubeTopCenter.value
      exampleFrame.swingArmPivotToHeadTubeBottomCenter.value) ⟨0, 0⟩ =
      exampleFrame.swingArmPivotToHeadTubeTopCenter.value := by
    rw [distance_comm]
    exact dist_CA (by norm_num [exampleFrame]) (by norm_num [exampleFrame])
      (by norm_num [exampleFrame])
  have hok : ∃ g : MotoGeometry, generateGeometry exampleFrame exampleSim = Except.ok g := by
    unfold generateGeometry
    rw [triangleVerticesNamed_ok (by norm_num [exampleFrame]) (by norm_num [exampleFrame])
      (by norm_num [exampleFrame])]
    simp only []
    rw [triangleFromVerticesAndEdges_ok (by norm_num [exampleFrame])
      (by norm_num [exampleFrame]) (by rw [hdist]; norm_num [exampleFrame])
      (by rw [hdist]; norm_num [exampleFrame]) (by rw [hdist]; norm_num [exampleFrame])]
    exact ⟨_, rfl⟩
  obtain ⟨g, hg⟩ := hok
  have hc := c9_swingarm_pivot_origin exampleFrame exampleSim g hg
  exact ⟨g, hg, hc.1, hc.2⟩

/-- Claim C10: `SimulationComponent.destroy` is idempotent: after one
successful call the component's body is null and its children list is empty,
and a further call performs no world mutation and raises no error (it
returns the same component and the unchanged world). -/
theorem c10_destroy_idempotent (cmp : SimComponent) (w : List Nat)
    (c1 : SimComponent) (w1 : List Nat) (h : destroy cmp w = some (c1, w1)) :
    c1.body = none ∧ c1.children = [] ∧ destroy c1 w1 = some (c1, w1) := by
  have hc1 : c1 = SimComponent.mk none [] := by
    cases cmp with
    | mk b cs =>
      unfold destroy at h
      split at h
      · exact absurd h (by simp)
      · split at h
        · split at h
          · exact absurd h (by simp)
          · simp only [Option.some.injEq, Prod.mk.injEq] at h
            exact h.1.symm
        · simp only [Option.some.injEq, Prod.mk.injEq] at h
          exact h.1.symm
  subst hc1
  refine ⟨rfl, rfl, ?_⟩
  simp [destroy, destroyAll]

/-- Claim C10 witness: destroying a two-component tree empties the world;
the destroyed component has no body and no children, and a second `destroy`
changes nothing and does not fault. -/
theorem c10_destroy_idempotent_witness :
    destroy (SimComponent.mk (some 0) [SimComponent.mk (some 1) []]) [0, 1] =
      some (SimComponent.mk none [], []) ∧
    SimComponent.body (SimComponent.mk none []) = none ∧
    SimComponent.children (SimComponent.mk none []) = [] ∧
    destroy (SimComponent.mk none []) [] = some (SimComponent.mk none [], []) := by
  have h : destroy (SimComponent.mk (some 0) [SimComponent.mk (some 1) []]) [0, 1] =
      some (SimComponent.mk none [], []) := by
    simp [destroy, destroyAll, destroyBody]
  obtain ⟨hb, hc, hi⟩ := c10_destroy_idempotent _ _ _ _ h
  exact ⟨h, hb, hc, hi⟩

end Motosus
